import Mathlib

/-!
Shallow embedding of the moving-camera VMD foreground estimator.

Sources embedded:
- MovingCameraVMD/utiles.py : no_overflow, get_grid_coordinates, check_overlap, overlap.
- MovingCameraForegroundEstimetor/ForegroundEstimetor.py : the ForegroundEstimetor
  facade (constructor, first_pass, get_foreground).
- foreground.py : the MovingCameraForegroundEstimetor wrapper's constructor.
- vmd.py : VMD.reset's action on the foreground estimator.

Python floats are modelled as rationals.  The sub-models (CompensationModel,
StatisticalModel from MathematicalModels, KLTWrapper) and the cv2 blurs are not
part of the given sources: the facade is embedded parametrically over a bundle
of these operations, and spec-modelled executable instantiations are provided
for concrete runs.
-/

/-! ## utiles.py -/

/-- Python utiles.no_overflow: clamps the inclusive end coordinate of a patch
starting at i with the given extent to stay below limit. -/
def no_overflow (i addition limit : ℤ) : ℤ :=
  if limit ≤ i + addition then limit - 1 else i + addition - 1

/-- Python range(0, stop, step) for a positive step: the values k*step for
0 <= k < ceil(stop/step).  The source only calls range with step = grid_size,
and the claims restrict to positive grid sizes. -/
def pyRangePos (stop step : ℤ) : List ℤ :=
  (List.range ((stop + step - 1) / step).toNat).map (fun (k : ℕ) => (k : ℤ) * step)

/-- Python utiles.get_grid_coordinates: patch_size_y = patch_size_x = grid_size;
for y in range(0, img_size[0], patch_size_y), for x in range(0, img_size[1],
patch_size_x), append [x0, y0, x1, y1] with the ends clamped by no_overflow. -/
def get_grid_coordinates (grid_size : ℤ) (img_size : ℤ × ℤ) : List (List ℤ) :=
  (pyRangePos img_size.1 grid_size).flatMap (fun y =>
    (pyRangePos img_size.2 grid_size).map (fun x =>
      [x, y, no_overflow x grid_size img_size.2, no_overflow y grid_size img_size.1]))

/-- A rectangle in inclusive coordinates; the Python sources pass these as the
list [x0, y0, x1, y1], embedded here as the four fields in that order. -/
structure Coords where
  x0 : ℤ
  y0 : ℤ
  x1 : ℤ
  y1 : ℤ
deriving DecidableEq

/-- Python utiles.check_overlap: False when one rectangle lies strictly beyond
the other along either axis, True otherwise. -/
def check_overlap (c1 c2 : Coords) : Bool :=
  if c2.x1 + 1 ≤ c1.x0 ∨ c1.x1 + 1 ≤ c2.x0 ∨ c1.y1 + 1 ≤ c2.y0 ∨ c2.y1 + 1 ≤ c1.y0 then
    false
  else
    true

/-- Python utiles.overlap: the intersection area of two inclusive rectangles,
0 when they do not intersect. -/
def overlap (c1 c2 : Coords) : ℤ :=
  let dx := min (c1.x1 + 1) (c2.x1 + 1) - max c1.x0 c2.x0
  let dy := min (c1.y1 + 1) (c2.y1 + 1) - max c1.y0 c2.y0
  if 0 ≤ dx ∧ 0 ≤ dy then dx * dy else 0

/-! ## Constructor attribute semantics (foreground.py wrapper vs parent) -/

/-- A Python runtime value as stored in a configuration attribute: the
constructors at issue receive booleans, strings and numbers. -/
inductive PVal where
  | pbool (b : Bool)
  | pstr (s : String)
  | pnum (q : ℚ)
deriving DecidableEq

/-- The attributes that ForegroundEstimetor.__init__ stores from its arguments,
in the parameter order of the source. -/
structure FEConfig where
  num_models : PVal
  block_size : PVal
  var_init : PVal
  var_trim : PVal
  lam : PVal
  theta_v : PVal
  age_trim : PVal
  theta_s : PVal
  theta_d : PVal
  dynamic : PVal
  calc_probs : PVal
  sensetivity : PVal
  smooth : PVal
deriving DecidableEq

/-- ForegroundEstimetor.__init__ stores each of its thirteen parameters in the
attribute of the same name. -/
def foregroundEstimetorInitAttrs (num_models block_size var_init var_trim lam theta_v
    age_trim theta_s theta_d dynamic calc_probs sensetivity smooth : PVal) : FEConfig :=
  ⟨num_models, block_size, var_init, var_trim, lam, theta_v, age_trim, theta_s, theta_d,
   dynamic, calc_probs, sensetivity, smooth⟩

/-- Default value of the parent parameter smooth (True). -/
def dSmooth : PVal := PVal.pbool true

/-- Default value of the parent parameter dynamic (False). -/
def dDynamic : PVal := PVal.pbool false

/-- The string value mixed. -/
def strMixed : String := "mixed"

/-- MovingCameraForegroundEstimetor.__init__ (foreground.py) forwards its twelve
arguments positionally to the parent's thirteen-parameter initializer: the
source omits dynamic from the call, so the value passed as calc_probs fills the
parent's dynamic slot, sensetivity fills calc_probs, smooth fills sensetivity,
and the parent's smooth takes its default True. -/
def movingCameraInitAttrs (num_models block_size var_init var_trim lam theta_v
    age_trim theta_s theta_d calc_probs sensetivity smooth : PVal) : FEConfig :=
  foregroundEstimetorInitAttrs num_models block_size var_init var_trim lam theta_v
    age_trim theta_s theta_d calc_probs sensetivity smooth dSmooth

/-! ## The facade state machine -/

/-- A grayscale frame: rows of rational pixel intensities. -/
abbrev GrayFrame := List (List ℚ)

/-- Frame height, the first component of numpy shape. -/
def frameH (f : GrayFrame) : ℕ := f.length

/-- Frame width, the second component of numpy shape (of a rectangular frame). -/
def frameW (f : GrayFrame) : ℕ := (f.headD []).length

/-- A 3x3 homography matrix. -/
structure Homography where
  rows : List (List ℚ)
deriving DecidableEq

/-- The identity homography. -/
def idHomography : Homography := ⟨[[1, 0, 0], [0, 1, 0], [0, 0, 1]]⟩

/-- Per-cell model statistics: means, vars and ages indexed [cell][model],
cells flattened row-major. -/
structure Stats where
  means : List (List ℚ)
  vars : List (List ℚ)
  ages : List (List ℚ)
deriving DecidableEq

/-- KLT wrapper state: the retained reference frame (the tracked feature set of
the missing KLTWrapper source is not modelled). -/
structure KLTState where
  ref : Option GrayFrame
deriving DecidableEq

/-- The typed configuration the facade carries at runtime, in the parameter
order of ForegroundEstimetor.__init__.  The source exposes sensetivity as one
of True, False or the string mixed, so that field keeps the PVal type. -/
structure FENums where
  num_models : ℕ
  block_size : ℕ
  var_init : ℚ
  var_trim : ℚ
  lam : ℚ
  theta_v : ℚ
  age_trim : ℚ
  theta_s : ℚ
  theta_d : ℚ
  dynamic : Bool
  calc_probs : Bool
  sensetivity : PVal
  smooth : Bool
deriving DecidableEq

/-- The operations the facade dispatches to: the cv2 blurs (external library)
and the methods of KLTWrapper, StatisticalModel and CompensationModel
(repository modules not among the given sources).  The facade is embedded as a
function of this bundle; spec-modelled instantiations follow below. -/
structure Ops where
  medianBlur : GrayFrame → ℕ → GrayFrame
  gaussianBlur : GrayFrame → ℕ × ℕ → ℚ → GrayFrame
  kltInit : KLTState → GrayFrame → KLTState
  kltRunTrack : KLTState → GrayFrame → Homography × KLTState
  statInit : FENums → ℕ → ℕ → Stats
  statGetForeground : FENums → GrayFrame → Stats → GrayFrame × Stats
  compInit : FENums → Stats → Stats
  compensate : FENums → Homography → Stats → Stats

/-- Message of the IOError raised by first_pass. -/
def dimsErrMsg : String := "Image dims most be dividable by block_size"

/-- The exceptions raised in the embedded code paths: the IOError that
first_pass raises, and the AttributeError Python would raise were the
statistical model still None on a non-first frame. -/
inductive PyErr where
  | ioError (msg : String)
  | attributeError
deriving DecidableEq

deriving instance DecidableEq for Except

/-- The mutable state of a ForegroundEstimetor instance: configuration,
is_first flag, the homography calculator, the statistical model's retained
statistics (None until first_pass), whether the compensation model exists, and
the grid dimensions. -/
structure FEState where
  cfg : FENums
  is_first : Bool
  klt : KLTState
  statState : Option Stats
  compInited : Bool
  model_height : Option ℕ
  model_width : Option ℕ
deriving DecidableEq

/-- ForegroundEstimetor.__init__: sets is_first = True, a fresh KLTWrapper,
models and grid dimensions to None, and stores the configuration.  The body
contains no raise statement, so construction never produces an error value. -/
def feInit (cfg : FENums) : Except PyErr FEState :=
  Except.ok ⟨cfg, true, ⟨none⟩, none, false, none, none⟩

/-- The smoothing block of get_foreground.  The source assigns the median blur
to the misspelled name gary_frame and never reads it, then applies the Gaussian
blur to the original gray_frame. -/
def smoothInput (ops : Ops) (smooth : Bool) (gray_frame : GrayFrame) : GrayFrame :=
  if smooth then
    let gary_frame := ops.medianBlur gray_frame 5
    ops.gaussianBlur gray_frame (7, 7) 0
  else gray_frame

/-- ForegroundEstimetor.first_pass: checks divisibility of the frame dimensions
by block_size (raising IOError otherwise), computes the grid dimensions,
creates the models, initializes the homography calculator on the raw frame,
initializes the statistical model, feeds its statistics to the compensation
model's init, and returns the statistical foreground of the raw frame against
the compensation-initialized statistics.  The source sets is_first = False
before the divisibility check; the exception path is modelled as Except.error,
no claim consumes the partially mutated instance. -/
def firstPass (ops : Ops) (s : FEState) (gray_frame : GrayFrame) :
    Except PyErr (GrayFrame × FEState) :=
  let h := frameH gray_frame
  let w := frameW gray_frame
  if h % s.cfg.block_size ≠ 0 ∨ w % s.cfg.block_size ≠ 0 then
    Except.error (PyErr.ioError dimsErrMsg)
  else
    let model_height := h / s.cfg.block_size
    let model_width := w / s.cfg.block_size
    let klt' := ops.kltInit s.klt gray_frame
    let inited := ops.statInit s.cfg model_height model_width
    let com := ops.compInit s.cfg inited
    let r := ops.statGetForeground s.cfg gray_frame com
    Except.ok (r.1, ⟨s.cfg, false, klt', some r.2, true, some model_height, some model_width⟩)

/-- ForegroundEstimetor.get_foreground: first_pass on the first frame;
otherwise optional smoothing, then the previous statistics are read from the
statistical model, the homography is computed by RunTrack on the (smoothed)
frame, compensate consumes the homography and the previous statistics, and the
statistical foreground consumes the (smoothed) frame and the compensated
statistics.  No dimension check occurs on this path. -/
def getForeground (ops : Ops) (s : FEState) (gray_frame : GrayFrame) :
    Except PyErr (GrayFrame × FEState) :=
  if s.is_first then firstPass ops s gray_frame
  else
    let gf := smoothInput ops s.cfg.smooth gray_frame
    match s.statState with
    | none => Except.error PyErr.attributeError
    | some prev =>
      let tr := ops.kltRunTrack s.klt gf
      let com := ops.compensate s.cfg tr.1 prev
      let r := ops.statGetForeground s.cfg gf com
      Except.ok (r.1, ⟨s.cfg, s.is_first, tr.2, some r.2, s.compInited,
        s.model_height, s.model_width⟩)

/-- Method name strings of the class body of ForegroundEstimetor. -/
def mDunderInit : String := "__init__"

/-- Method name first_pass. -/
def mFirstPass : String := "first_pass"

/-- Method name get_foreground. -/
def mGetForeground : String := "get_foreground"

/-- Method name __call__. -/
def mDunderCall : String := "__call__"

/-- Method name reset, as queried by VMD.RESET_FN_NAME. -/
def mReset : String := "reset"

/-- The methods defined by class ForegroundEstimetor (its whole class body);
the wrapper subclass in foreground.py adds only __init__.  There is no reset
method. -/
def feMethodNames : List String := [mDunderInit, mFirstPass, mGetForeground, mDunderCall]

/-- VMD.reset's action on the foreground estimator (vmd.py): the reset call is
guarded by hasattr(self.foreground_estimation_obj, 'reset').  The class defines
no reset, so the guard fails and the estimator state is untouched; the then
branch is vacuous since there is no method to invoke. -/
def vmdResetForeground (s : FEState) : FEState :=
  if feMethodNames.contains mReset then s else s

/-! ## Spec-modelled instantiations of the missing operations -/

/-- Modelled from the spec: cv2.medianBlur is an external library call outside
the repository; instantiated as the identity on frames.  The facade theorems
quantify over arbitrary blur functions. -/
def specMedianBlur (f : GrayFrame) (_aperture : ℕ) : GrayFrame := f

/-- Modelled from the spec: cv2.GaussianBlur, external library call,
instantiated as the identity on frames. -/
def specGaussianBlur (f : GrayFrame) (_ksize : ℕ × ℕ) (_sigma : ℚ) : GrayFrame := f

/-- Modelled from the spec: KLTWrapper.init retains frame0 as the reference
(section 4.2); the sparse feature detection of the missing KLTWrapper source is
not modelled. -/
def specKltInit (_s : KLTState) (frame0 : GrayFrame) : KLTState := ⟨some frame0⟩

/-- Modelled from the spec: KLTWrapper.RunTrack replaces the retained frame
with the incoming frame and returns a homography; optical flow estimation is
not modelled, so the contract's degenerate arm (return the 3x3 identity on too
few correspondences, never fail loudly) is used. -/
def specKltRunTrack (_s : KLTState) (frame_t : GrayFrame) : Homography × KLTState :=
  (idHomography, ⟨some frame_t⟩)

/-- Modelled from the spec: StatisticalModel.init, missing source
MathematicalModels.StatisticalModel: on initialization all means are zero, all
vars equal var_init and all ages are zero (spec section 3, Lifecycle). -/
def specStatInit (cfg : FENums) (model_height model_width : ℕ) : Stats :=
  ⟨List.replicate (model_height * model_width) (List.replicate cfg.num_models 0),
   List.replicate (model_height * model_width) (List.replicate cfg.num_models cfg.var_init),
   List.replicate (model_height * model_width) (List.replicate cfg.num_models 0)⟩

/-- Step 4 of the compensation algorithm (spec section 4.3): clamp vars from
below by var_trim and ages from above by age_trim. -/
def clampStats (cfg : FENums) (st : Stats) : Stats :=
  ⟨st.means,
   st.vars.map (List.map (fun v => max cfg.var_trim v)),
   st.ages.map (List.map (fun a => min cfg.age_trim a))⟩

/-- Modelled from the spec: CompensationModel.compensate, missing source
MathematicalModels.CompensationModel.  Only the identity homography arises in
this development (the spec-modelled KLT above always returns it); under the
identity warp each cell's four-neighbour bilinear mixture degenerates to weight
one on the cell itself, leaving means, vars and ages unchanged up to the step-4
clamps, which are applied.  The general warp geometry and the exponential age
decay of section 4.3 are not modelled. -/
def specCompensate (cfg : FENums) (_H : Homography) (st : Stats) : Stats :=
  clampStats cfg st

/-- Modelled from the spec: CompensationModel.init consumes the freshly
initialized statistics; per section 4.5 the first frame calls compensation with
the identity homography. -/
def specCompInit (cfg : FENums) (st : Stats) : Stats :=
  specCompensate cfg idHomography st

/-- Entry (i, j) of a list of lists of rationals, defaulting to 0. -/
def listGet2 (xss : List (List ℚ)) (i j : ℕ) : ℚ := (xss.getD i []).getD j 0

/-- The pixels of the B x B block at grid cell (gy, gx). -/
def blockPixels (f : GrayFrame) (b gy gx : ℕ) : List ℚ :=
  ((f.drop (gy * b)).take b).flatMap (fun row => (row.drop (gx * b)).take b)

/-- Observed mean of a cell's pixels. -/
def cellMean (f : GrayFrame) (b gy gx : ℕ) : ℚ :=
  (blockPixels f b gy gx).sum / ((b : ℚ) * b)

/-- Index of the minimum of a list, accumulator form. -/
def argminAux : List ℚ → ℕ → ℕ → ℚ → ℕ
  | [], _, best, _ => best
  | a :: t, i, best, bv =>
    if a < bv then argminAux t (i + 1) i a else argminAux t (i + 1) best bv

/-- Index of the minimum element of a list (0 for the empty list). -/
def argminIdx : List ℚ → ℕ
  | [] => 0
  | a :: t => argminAux t 1 0 a

/-- Minimum of a list of rationals (0 for the empty list). -/
def minList : List ℚ → ℚ
  | [] => 0
  | a :: t => t.foldl min a

/-- Swap the entries at positions 0 and i of a list. -/
def swapIdx0 (l : List ℚ) (i : ℕ) : List ℚ :=
  (l.set 0 (l.getD i 0)).set i (l.getD 0 0)

/-- Modelled from the spec: the per-cell model selection and update of section
4.4, missing source MathematicalModels.StatisticalModel.  Distances d_k against
the warped statistics gate on theta_s; a match updates the chosen model with
learning rate 1/(age+1) and clamps; otherwise the lowest-age non-apparent model
is evicted and re-initialized to (mu_obs, var_init, 1).  Afterwards the updated
or re-initialized model is swapped into the apparent slot 0 when its age
exceeds the incumbent's. -/
def specCellUpdate (cfg : FENums) (mu : ℚ) (m v a : List ℚ) :
    List ℚ × List ℚ × List ℚ :=
  let ds := (List.range cfg.num_models).map (fun k =>
    (mu - m.getD k 0) * (mu - m.getD k 0) / max (v.getD k 0) cfg.var_trim)
  if minList ds ≤ cfg.theta_s then
    let k := argminIdx ds
    let alpha := 1 / (a.getD k 0 + 1)
    let nm := (1 - alpha) * m.getD k 0 + alpha * mu
    let nv := max cfg.var_trim ((1 - alpha) * v.getD k 0 + alpha * ((mu - nm) * (mu - nm)))
    let na := min cfg.age_trim (a.getD k 0 + 1)
    let m' := m.set k nm
    let v' := v.set k nv
    let a' := a.set k na
    if k ≠ 0 ∧ a.getD 0 0 < na then (swapIdx0 m' k, swapIdx0 v' k, swapIdx0 a' k)
    else (m', v', a')
  else
    let k := 1 + argminIdx (a.drop 1)
    let m' := m.set k mu
    let v' := v.set k cfg.var_init
    let a' := a.set k 1
    if a.getD 0 0 < 1 then (swapIdx0 m' k, swapIdx0 v' k, swapIdx0 a' k)
    else (m', v', a')

/-- Modelled from the spec: StatisticalModel.get_foreground of section 4.4,
missing source MathematicalModels.StatisticalModel.  Per cell the observation
mean is fused by specCellUpdate; which generation of each statistic feeds the
per-pixel test follows the sensetivity docstring of the source (True:
foreground from the warped state; False: from the fully updated state; mixed:
new means with old vars).  Emission uses the pixel's own cell's apparent-model
statistics (the degenerate nearest-cell form of the spec's bilinear
interpolation): the score z is emitted raw under calc_probs, else the binary
test z > theta_d^2 gated on apparent age at least 1. -/
def specStatGetForeground (cfg : FENums) (f : GrayFrame) (st : Stats) :
    GrayFrame × Stats :=
  let b := cfg.block_size
  let mh := frameH f / b
  let mw := frameW f / b
  let upd := (List.range (mh * mw)).map (fun c =>
    specCellUpdate cfg (cellMean f b (c / mw) (c % mw))
      (st.means.getD c []) (st.vars.getD c []) (st.ages.getD c []))
  let newMeans := upd.map (fun t => t.1)
  let newVars := upd.map (fun t => t.2.1)
  let newAges := upd.map (fun t => t.2.2)
  let emitMeans := match cfg.sensetivity with
    | PVal.pbool true => st.means
    | _ => newMeans
  let emitVars := match cfg.sensetivity with
    | PVal.pbool false => newVars
    | _ => st.vars
  let emitAges := match cfg.sensetivity with
    | PVal.pbool false => newAges
    | _ => st.ages
  let out := (List.range (frameH f)).map (fun r =>
    (List.range (frameW f)).map (fun c2 =>
      let ci := (r / b) * mw + c2 / b
      let dev := listGet2 f r c2 - listGet2 emitMeans ci 0
      let z := dev * dev / max (listGet2 emitVars ci 0) cfg.var_trim
      if cfg.calc_probs then z
      else if cfg.theta_d * cfg.theta_d < z ∧ 1 ≤ listGet2 emitAges ci 0 then 1 else 0))
  (out, ⟨newMeans, newVars, newAges⟩)

/-- The spec-modelled operation bundle. -/
def specOps : Ops :=
  ⟨specMedianBlur, specGaussianBlur, specKltInit, specKltRunTrack, specStatInit,
   specStatGetForeground, specCompInit, specCompensate⟩

/-- A probe median blur that visibly alters any frame (appends an empty row),
used to witness that the facade discards the median-blurred result. -/
def probeMedianBlur (f : GrayFrame) (_aperture : ℕ) : GrayFrame := f ++ [[]]

/-- A probe Gaussian blur that visibly alters any frame (prepends an empty
row), so that its argument can be read off its output. -/
def probeGaussianBlur (f : GrayFrame) (_ksize : ℕ × ℕ) (_sigma : ℚ) : GrayFrame :=
  [] :: f

/-- The operation bundle with the probe blurs. -/
def probeOps : Ops :=
  ⟨probeMedianBlur, probeGaussianBlur, specKltInit, specKltRunTrack, specStatInit,
   specStatGetForeground, specCompInit, specCompensate⟩

/-! ## Concrete data for witnesses -/

/-- The default configuration of ForegroundEstimetor.__init__: num_models 2,
block_size 4, var_init 400, var_trim 25, lam 0.001, theta_v 2500, age_trim 30,
theta_s 2, theta_d 2, dynamic False, calc_probs False, sensetivity mixed,
smooth True. -/
def cfg0 : FENums :=
  ⟨2, 4, 400, 25, 1 / 1000, 2500, 30, 2, 2, false, false, PVal.pstr strMixed, true⟩

/-- A 4 x 4 frame of constant intensity 128. -/
def frame44 : GrayFrame :=
  [[128, 128, 128, 128], [128, 128, 128, 128], [128, 128, 128, 128], [128, 128, 128, 128]]

/-- A freshly constructed instance with the default configuration. -/
def stateFresh : FEState := ⟨cfg0, true, ⟨none⟩, none, false, none, none⟩

/-- A 63 x 64 frame of constant intensity 128 (height not divisible by 4). -/
def frame6364 : GrayFrame := List.replicate 63 (List.replicate 64 (128 : ℚ))

/-- One-cell statistics for a 4 x 4 frame with two models. -/
def stats6 : Stats := ⟨[[0, 0]], [[400, 400]], [[0, 0]]⟩

/-- A post-first-frame state over a 4 x 4 first frame. -/
def state6 : FEState := ⟨cfg0, false, ⟨some frame44⟩, some stats6, true, some 1, some 1⟩

/-- An 8 x 8 frame of constant intensity 128. -/
def frame88 : GrayFrame := List.replicate 8 (List.replicate 8 (128 : ℚ))

/-- Four-cell statistics for an 8 x 8 first frame with two models. -/
def stats4 : Stats :=
  ⟨List.replicate 4 [0, 0], List.replicate 4 [400, 400], List.replicate 4 [0, 0]⟩

/-- A post-first-frame state whose first frame was 8 x 8 (model grid 2 x 2). -/
def state4 : FEState := ⟨cfg0, false, ⟨some frame88⟩, some stats4, true, some 2, some 2⟩

/-- A 4 x 8 frame of constant intensity 64: its dimensions differ from the
8 x 8 first frame retained in state4. -/
def frame48 : GrayFrame := List.replicate 4 (List.replicate 8 (64 : ℚ))

/-- A 12 x 8 frame of constant intensity 50, also mismatching state4. -/
def frame128 : GrayFrame := List.replicate 12 (List.replicate 8 (50 : ℚ))

/-- The wrapper instance of foreground.py constructed with calc_probs = True,
sensetivity = mixed, smooth = False and the remaining parameters at their
defaults. -/
def mcInstance : FEConfig :=
  movingCameraInitAttrs (PVal.pnum 2) (PVal.pnum 4) (PVal.pnum 400) (PVal.pnum 25)
    (PVal.pnum (1 / 1000)) (PVal.pnum 2500) (PVal.pnum 30) (PVal.pnum 2) (PVal.pnum 2)
    (PVal.pbool true) (PVal.pstr strMixed) (PVal.pbool false)

/-- A ForegroundEstimetor given those same named arguments directly (dynamic at
its default False). -/
def feInstance : FEConfig :=
  foregroundEstimetorInitAttrs (PVal.pnum 2) (PVal.pnum 4) (PVal.pnum 400) (PVal.pnum 25)
    (PVal.pnum (1 / 1000)) (PVal.pnum 2500) (PVal.pnum 30) (PVal.pnum 2) (PVal.pnum 2)
    dDynamic (PVal.pbool true) (PVal.pstr strMixed) (PVal.pbool false)

/-! ## Helper lemmas -/

/-- getD of a replicate at an in-range index. -/
theorem getD_replicate {α : Type} (n : ℕ) (a d : α) (i : ℕ) (h : i < n) :
    (List.replicate n a).getD i d = a := by
  induction n generalizing i with
  | zero => omega
  | succ n ih =>
    cases i with
    | zero => rfl
    | succ j =>
      simp only [List.replicate_succ, List.getD_cons_succ]
      exact ih j (by omega)

/-- Congruence for flatMap over a fixed list. -/
theorem list_flatMap_congr {α β : Type} {l : List α} {f g : α → List β}
    (h : ∀ a ∈ l, f a = g a) : l.flatMap f = l.flatMap g := by
  induction l with
  | nil => rfl
  | cons a t ih =>
    simp only [List.flatMap_cons]
    rw [h a (by simp), ih (fun x hx => h x (by simp [hx]))]

/-- Length of a rectangular range-flatMap grid. -/
theorem rangeGrid_length {α : Type} (m n : ℕ) (f : ℕ → ℕ → α) :
    ((List.range m).flatMap (fun a => (List.range n).map (f a))).length = m * n := by
  rw [List.length_flatMap]
  have h : (List.range m).map (List.length ∘ fun a => (List.range n).map (f a)) =
      List.replicate m n := by
    rw [List.eq_replicate_iff]
    constructor
    · simp
    · intro b hb
      simp only [List.mem_map, Function.comp] at hb
      obtain ⟨a, _, rfl⟩ := hb
      simp
  rw [h, List.sum_replicate, smul_eq_mul]

/-- Row-major indexing into a rectangular range-flatMap grid. -/
theorem rangeGrid_get {α : Type} (m n : ℕ) (f : ℕ → ℕ → α) (i j : ℕ)
    (hi : i < m) (hj : j < n) :
    ((List.range m).flatMap (fun a => (List.range n).map (f a)))[i * n + j]? =
      some (f i j) := by
  induction m with
  | zero => omega
  | succ m ih =>
    rw [List.range_succ, List.flatMap_append, List.getElem?_append, rangeGrid_length m n f]
    rcases Nat.lt_or_ge i m with h | h
    · have hlt : i * n + j < m * n := by
        calc i * n + j < i * n + n := by omega
        _ = (i + 1) * n := by ring
        _ ≤ m * n := Nat.mul_le_mul_right n h
      rw [if_pos hlt]
      exact ih h
    · have hi2 : i = m := by omega
      subst hi2
      rw [if_neg (Nat.not_lt.mpr (Nat.le_add_right _ _)), Nat.add_sub_cancel_left]
      simp [List.getElem?_map, List.getElem?_range hj]

/-- The Python range count ceil((H + B - 1)/B) equals H/B when B divides H. -/
theorem pyRangePos_count (B H : ℕ) (hB : 0 < B) (hH : B ∣ H) :
    (((H : ℤ) + (B : ℤ) - 1) / (B : ℤ)).toNat = H / B := by
  obtain ⟨q, rfl⟩ := hH
  have hB' : (B : ℤ) ≠ 0 := by exact_mod_cast hB.ne'
  have h1 : ((B * q : ℕ) : ℤ) + (B : ℤ) - 1 = ((B : ℤ) - 1) + (B : ℤ) * q := by
    push_cast
    ring
  rw [h1, Int.add_mul_ediv_left _ _ hB']
  have h2 : ((B : ℤ) - 1) / (B : ℤ) = 0 :=
    Int.ediv_eq_zero_of_lt (by omega) (by omega)
  rw [h2, Nat.mul_div_cancel_left q hB]
  omega

/-- pyRangePos on divisible bounds is the grid multiples list. -/
theorem pyRangePos_eq (B H : ℕ) (hB : 0 < B) (hH : B ∣ H) :
    pyRangePos (H : ℤ) (B : ℤ) =
      (List.range (H / B)).map (fun (k : ℕ) => (k : ℤ) * (B : ℤ)) := by
  unfold pyRangePos
  rw [pyRangePos_count B H hB hH]

/-- no_overflow returns the inclusive end i + addition - 1 whenever the patch
fits (both branches agree at the boundary). -/
theorem no_overflow_of_le (i addition limit : ℤ) (h : i + addition ≤ limit) :
    no_overflow i addition limit = i + addition - 1 := by
  unfold no_overflow
  split <;> omega

/-- The inclusive cell end stays within a divisible image extent. -/
theorem cell_end_le (B W gx : ℕ) (hW : B ∣ W) (hgx : gx < W / B) :
    (gx + 1) * B ≤ W := by
  calc (gx + 1) * B ≤ (W / B) * B := Nat.mul_le_mul_right B hgx
  _ = W := Nat.div_mul_cancel hW

/-- Normal form of get_grid_coordinates on divisible dimensions. -/
theorem grid_normal (B H W : ℕ) (hB : 0 < B) (hH : B ∣ H) (hW : B ∣ W) :
    get_grid_coordinates (B : ℤ) ((H : ℤ), (W : ℤ)) =
      (List.range (H / B)).flatMap (fun (gy : ℕ) =>
        (List.range (W / B)).map (fun (gx : ℕ) =>
          [(gx : ℤ) * (B : ℤ), (gy : ℤ) * (B : ℤ),
           ((gx : ℤ) + 1) * (B : ℤ) - 1, ((gy : ℤ) + 1) * (B : ℤ) - 1])) := by
  unfold get_grid_coordinates
  rw [pyRangePos_eq B H hB hH, pyRangePos_eq B W hB hW, List.flatMap_map]
  apply list_flatMap_congr
  intro gy hgy
  rw [List.map_map]
  apply List.map_congr_left
  intro gx hgx
  simp only [List.mem_range] at hgy hgx
  have hx : (gx : ℤ) * (B : ℤ) + (B : ℤ) ≤ (W : ℤ) := by
    have h := cell_end_le B W gx hW hgx
    have h2 : (((gx + 1) * B : ℕ) : ℤ) ≤ (W : ℤ) := by exact_mod_cast h
    push_cast at h2
    linarith
  have hy : (gy : ℤ) * (B : ℤ) + (B : ℤ) ≤ (H : ℤ) := by
    have h := cell_end_le B H gy hH hgy
    have h2 : (((gy + 1) * B : ℕ) : ℤ) ≤ (H : ℤ) := by exact_mod_cast h
    push_cast at h2
    linarith
  simp only [Function.comp]
  rw [no_overflow_of_le _ _ _ hx, no_overflow_of_le _ _ _ hy]
  ring_nf

/-! ## Claim theorems -/

/-- C2: the registered wrapper MovingCameraForegroundEstimetor does NOT store
the same configuration as a ForegroundEstimetor given the same named
arguments: the twelve positional arguments shift into the parent's thirteen
slots, so with calc_probs = True, sensetivity = mixed, smooth = False the
instance stores dynamic = True, calc_probs = mixed, sensetivity = False and
smooth = True (the parent's default). -/
theorem c2_wrapper_argument_shift :
    mcInstance.dynamic = PVal.pbool true ∧
    mcInstance.dynamic ≠ feInstance.dynamic ∧
    mcInstance.calc_probs = PVal.pstr strMixed ∧
    mcInstance.calc_probs ≠ feInstance.calc_probs ∧
    mcInstance.sensetivity = PVal.pbool false ∧
    mcInstance.sensetivity ≠ feInstance.sensetivity ∧
    mcInstance.smooth = PVal.pbool true ∧
    mcInstance.smooth ≠ feInstance.smooth :=
  ⟨rfl, by decide, rfl, by decide, rfl, by decide, rfl, by decide⟩

/-- C10: check_overlap returns true exactly when overlap returns a strictly
positive area, for rectangles given in inclusive coordinates with x0 <= x1 and
y0 <= y1; rectangles touching along an edge have overlap 0 and check_overlap
false. -/
theorem c10_check_overlap_iff_pos_area (c1 c2 : Coords)
    (h1 : c1.x0 ≤ c1.x1) (h2 : c1.y0 ≤ c1.y1)
    (h3 : c2.x0 ≤ c2.x1) (h4 : c2.y0 ≤ c2.y1) :
    check_overlap c1 c2 = true ↔ 0 < overlap c1 c2 := by
  simp only [check_overlap, overlap]
  by_cases hsep : c2.x1 + 1 ≤ c1.x0 ∨ c1.x1 + 1 ≤ c2.x0 ∨ c1.y1 + 1 ≤ c2.y0 ∨
      c2.y1 + 1 ≤ c1.y0
  · rw [if_pos hsep]
    simp only [Bool.false_eq_true, false_iff, not_lt]
    split_ifs with hnn
    · obtain ⟨hdx, hdy⟩ := hnn
      have hzero : min (c1.x1 + 1) (c2.x1 + 1) - max c1.x0 c2.x0 = 0 ∨
          min (c1.y1 + 1) (c2.y1 + 1) - max c1.y0 c2.y0 = 0 := by omega
      rcases hzero with h | h
      · rw [h, zero_mul]
      · rw [h, mul_zero]
    · exact le_refl 0
  · rw [if_neg hsep]
    push_neg at hsep
    obtain ⟨hs1, hs2, hs3, hs4⟩ := hsep
    have hdx : 0 < min (c1.x1 + 1) (c2.x1 + 1) - max c1.x0 c2.x0 := by omega
    have hdy : 0 < min (c1.y1 + 1) (c2.y1 + 1) - max c1.y0 c2.y0 := by omega
    rw [if_pos ⟨le_of_lt hdx, le_of_lt hdy⟩]
    simp only [true_iff]
    exact mul_pos hdx hdy

/-- C10 witness: two 4 x 4 rectangles touching along a vertical edge have
check_overlap false and overlap 0; the equivalence instantiates there. -/
theorem c10_check_overlap_iff_pos_area_witness :
    ((⟨0, 0, 3, 3⟩ : Coords).x0 ≤ (⟨0, 0, 3, 3⟩ : Coords).x1) ∧
    (check_overlap ⟨0, 0, 3, 3⟩ ⟨4, 0, 7, 3⟩ = true ↔ 0 < overlap ⟨0, 0, 3, 3⟩ ⟨4, 0, 7, 3⟩) ∧
    check_overlap ⟨0, 0, 3, 3⟩ ⟨4, 0, 7, 3⟩ = false ∧
    overlap ⟨0, 0, 3, 3⟩ ⟨4, 0, 7, 3⟩ = 0 :=
  ⟨by decide,
   c10_check_overlap_iff_pos_area ⟨0, 0, 3, 3⟩ ⟨4, 0, 7, 3⟩
     (by decide) (by decide) (by decide) (by decide),
   by decide, by decide⟩

/-- C8: on an image whose height and width are divisible by the positive block
size, get_grid_coordinates returns exactly (H/B)*(W/B) rectangles in row-major
order (y outer, x inner); the rectangle at grid cell (gx, gy) is
[gx*B, gy*B, (gx+1)*B - 1, (gy+1)*B - 1] and lies within the image bounds. -/
theorem c8_grid_coordinates (B H W gx gy : ℕ) (hB : 0 < B) (hH : B ∣ H) (hW : B ∣ W)
    (hgx : gx < W / B) (hgy : gy < H / B) :
    (get_grid_coordinates (B : ℤ) ((H : ℤ), (W : ℤ))).length = (H / B) * (W / B) ∧
    (get_grid_coordinates (B : ℤ) ((H : ℤ), (W : ℤ)))[gy * (W / B) + gx]? =
      some [(gx : ℤ) * (B : ℤ), (gy : ℤ) * (B : ℤ),
        ((gx : ℤ) + 1) * (B : ℤ) - 1, ((gy : ℤ) + 1) * (B : ℤ) - 1] ∧
    0 ≤ (gx : ℤ) * (B : ℤ) ∧ ((gx : ℤ) + 1) * (B : ℤ) - 1 < (W : ℤ) ∧
    0 ≤ (gy : ℤ) * (B : ℤ) ∧ ((gy : ℤ) + 1) * (B : ℤ) - 1 < (H : ℤ) := by
  rw [grid_normal B H W hB hH hW]
  have hxb : ((gx : ℤ) + 1) * (B : ℤ) ≤ (W : ℤ) := by
    have h := cell_end_le B W gx hW hgx
    have h2 : (((gx + 1) * B : ℕ) : ℤ) ≤ (W : ℤ) := by exact_mod_cast h
    push_cast at h2
    linarith
  have hyb : ((gy : ℤ) + 1) * (B : ℤ) ≤ (H : ℤ) := by
    have h := cell_end_le B H gy hH hgy
    have h2 : (((gy + 1) * B : ℕ) : ℤ) ≤ (H : ℤ) := by exact_mod_cast h
    push_cast at h2
    linarith
  refine ⟨rangeGrid_length _ _ _, rangeGrid_get _ _ _ _ _ hgy hgx, ?_, ?_, ?_, ?_⟩
  · positivity
  · linarith
  · positivity
  · linarith

/-- C8 witness: B = 2 on a 4 x 6 image, cell (gx, gy) = (2, 1). -/
theorem c8_grid_coordinates_witness :
    (get_grid_coordinates ((2 : ℕ) : ℤ) (((4 : ℕ) : ℤ), ((6 : ℕ) : ℤ))).length =
      (4 / 2) * (6 / 2) ∧
    (get_grid_coordinates ((2 : ℕ) : ℤ) (((4 : ℕ) : ℤ), ((6 : ℕ) : ℤ)))[1 * (6 / 2) + 2]? =
      some [((2 : ℕ) : ℤ) * ((2 : ℕ) : ℤ), ((1 : ℕ) : ℤ) * ((2 : ℕ) : ℤ),
        (((2 : ℕ) : ℤ) + 1) * ((2 : ℕ) : ℤ) - 1, (((1 : ℕ) : ℤ) + 1) * ((2 : ℕ) : ℤ) - 1] ∧
    0 ≤ ((2 : ℕ) : ℤ) * ((2 : ℕ) : ℤ) ∧ (((2 : ℕ) : ℤ) + 1) * ((2 : ℕ) : ℤ) - 1 < ((6 : ℕ) : ℤ) ∧
    0 ≤ ((1 : ℕ) : ℤ) * ((2 : ℕ) : ℤ) ∧ (((1 : ℕ) : ℤ) + 1) * ((2 : ℕ) : ℤ) - 1 < ((4 : ℕ) : ℤ) :=
  c8_grid_coordinates 2 4 6 2 1 (by decide) ⟨2, rfl⟩ ⟨3, rfl⟩ (by decide) (by decide)

/-- C1 is refuted by the source: get_foreground assigns the median blur to the
misspelled, never-read name gary_frame and then applies the Gaussian blur to
the raw frame, so the frame consumed by KLT, compensation and the statistical
update is gaussian(raw), not gaussian(median(raw)).  The probe blurs make the
difference observable; the pipeline equation shows gaussian-of-raw flowing into
every downstream step and into the retained KLT reference. -/
theorem c1_median_blur_discarded :
    smoothInput probeOps true frame44 = probeOps.gaussianBlur frame44 (7, 7) 0 ∧
    smoothInput probeOps true frame44 ≠
      probeOps.gaussianBlur (probeOps.medianBlur frame44 5) (7, 7) 0 ∧
    getForeground probeOps state6 frame44 =
      Except.ok
        ((probeOps.statGetForeground cfg0 (probeOps.gaussianBlur frame44 (7, 7) 0)
            (probeOps.compensate cfg0
              (probeOps.kltRunTrack state6.klt (probeOps.gaussianBlur frame44 (7, 7) 0)).1
              stats6)).1,
         ⟨cfg0, false,
          (probeOps.kltRunTrack state6.klt (probeOps.gaussianBlur frame44 (7, 7) 0)).2,
          some (probeOps.statGetForeground cfg0 (probeOps.gaussianBlur frame44 (7, 7) 0)
            (probeOps.compensate cfg0
              (probeOps.kltRunTrack state6.klt (probeOps.gaussianBlur frame44 (7, 7) 0)).1
              stats6)).2,
          true, some 1, some 1⟩) ∧
    (probeOps.kltRunTrack state6.klt (probeOps.gaussianBlur frame44 (7, 7) 0)).2 =
      ⟨some (probeOps.gaussianBlur frame44 (7, 7) 0)⟩ :=
  ⟨rfl, by decide, rfl, rfl⟩

/-- C3 is refuted: the class body of ForegroundEstimetor defines __init__,
first_pass, get_foreground and __call__ only; there is no reset method for
VMD.reset's hasattr guard to find. -/
theorem c3_no_reset_exposed : feMethodNames.contains mReset = false := by decide

/-- C3 amended: the facade exposes no reset; VMD.reset leaves the estimator
state unchanged (the hasattr guard fails), a successful first process call
leaves is_first = false, and that flag survives a VMD-level reset, whereas a
freshly constructed instance starts with is_first = true.  Replay after a
VMD reset therefore proceeds through the subsequent-frame path rather than
re-running first-frame initialization. -/
theorem c3_reset_gap (ops : Ops) (s t : FEState) (f : GrayFrame) (cfg2 : FENums)
    (h0 : s.is_first = true) (h1 : frameH f % s.cfg.block_size = 0)
    (h2 : frameW f % s.cfg.block_size = 0) :
    vmdResetForeground t = t ∧
    feInit cfg2 = Except.ok ⟨cfg2, true, ⟨none⟩, none, false, none, none⟩ ∧
    getForeground ops s f =
      Except.ok ((ops.statGetForeground s.cfg f (ops.compInit s.cfg
          (ops.statInit s.cfg (frameH f / s.cfg.block_size) (frameW f / s.cfg.block_size)))).1,
        ⟨s.cfg, false, ops.kltInit s.klt f,
         some (ops.statGetForeground s.cfg f (ops.compInit s.cfg
           (ops.statInit s.cfg (frameH f / s.cfg.block_size)
             (frameW f / s.cfg.block_size)))).2,
         true, some (frameH f / s.cfg.block_size), some (frameW f / s.cfg.block_size)⟩) ∧
    (vmdResetForeground
      ⟨s.cfg, false, ops.kltInit s.klt f,
       some (ops.statGetForeground s.cfg f (ops.compInit s.cfg
         (ops.statInit s.cfg (frameH f / s.cfg.block_size)
           (frameW f / s.cfg.block_size)))).2,
       true, some (frameH f / s.cfg.block_size),
       some (frameW f / s.cfg.block_size)⟩).is_first = false := by
  refine ⟨?_, rfl, ?_, ?_⟩
  · unfold vmdResetForeground
    split <;> rfl
  · simp [getForeground, firstPass, h0, h1, h2]
  · simp [vmdResetForeground, ite_self]

/-- C3 witness: the amended statement instantiated with the spec-modelled
operations, a fresh default instance and a 4 x 4 first frame. -/
theorem c3_reset_gap_witness :
    vmdResetForeground state6 = state6 ∧
    feInit cfg0 = Except.ok ⟨cfg0, true, ⟨none⟩, none, false, none, none⟩ ∧
    getForeground specOps stateFresh frame44 =
      Except.ok ((specOps.statGetForeground stateFresh.cfg frame44 (specOps.compInit stateFresh.cfg
          (specOps.statInit stateFresh.cfg (frameH frame44 / stateFresh.cfg.block_size)
            (frameW frame44 / stateFresh.cfg.block_size)))).1,
        ⟨stateFresh.cfg, false, specOps.kltInit stateFresh.klt frame44,
         some (specOps.statGetForeground stateFresh.cfg frame44 (specOps.compInit stateFresh.cfg
           (specOps.statInit stateFresh.cfg (frameH frame44 / stateFresh.cfg.block_size)
             (frameW frame44 / stateFresh.cfg.block_size)))).2,
         true, some (frameH frame44 / stateFresh.cfg.block_size),
         some (frameW frame44 / stateFresh.cfg.block_size)⟩) ∧
    (vmdResetForeground
      ⟨stateFresh.cfg, false, specOps.kltInit stateFresh.klt frame44,
       some (specOps.statGetForeground stateFresh.cfg frame44 (specOps.compInit stateFresh.cfg
         (specOps.statInit stateFresh.cfg (frameH frame44 / stateFresh.cfg.block_size)
           (frameW frame44 / stateFresh.cfg.block_size)))).2,
       true, some (frameH frame44 / stateFresh.cfg.block_size),
       some (frameW frame44 / stateFresh.cfg.block_size)⟩).is_first = false :=
  c3_reset_gap specOps stateFresh state6 frame44 cfg0 rfl (by decide) (by decide)

/-- C4 amended: get_foreground performs no dimension check after the first
frame: with the models present, a process call returns a result for a frame of
any dimensions, so no DimensionMismatch-style error is raised by the facade. -/
theorem c4_unchecked_dims (ops : Ops) (s : FEState) (f : GrayFrame) (prev : Stats)
    (h1 : s.is_first = false) (h2 : s.statState = some prev) :
    (getForeground ops s f).isOk = true := by
  simp [getForeground, h1, h2, Except.isOk, Except.toBool]

/-- C4 witness: the instance whose first frame was 8 x 8 accepts a 4 x 8 frame
without any error. -/
theorem c4_unchecked_dims_witness : (getForeground specOps state4 frame48).isOk = true :=
  c4_unchecked_dims specOps state4 frame48 stats4 rfl rfl

/-- C4 is refuted at a concrete input: after an 8 x 8 first frame, a 12 x 8
frame is processed successfully; no error of any kind is raised, in particular
no dimension-mismatch error. -/
theorem c4_no_dimension_error :
    (getForeground specOps state4 frame128).isOk = true ∧
    getForeground specOps state4 frame128 ≠ Except.error (PyErr.ioError dimsErrMsg) ∧
    getForeground specOps state4 frame128 ≠ Except.error PyErr.attributeError := by
  refine ⟨by decide, by decide, by decide⟩

/-- C5 amended: the divisibility check lives in first_pass, so the dimensional
error is raised on the first process call (as an IOError), not at construction
time. -/
theorem c5_first_frame_divisibility_error (ops : Ops) (s : FEState) (f : GrayFrame)
    (h0 : s.is_first = true)
    (h1 : frameH f % s.cfg.block_size ≠ 0 ∨ frameW f % s.cfg.block_size ≠ 0) :
    getForeground ops s f = Except.error (PyErr.ioError dimsErrMsg) := by
  simp [getForeground, firstPass, h0, h1]

/-- C5 witness: block size 4 with a 63 x 64 first frame raises the IOError on
the first process call. -/
theorem c5_first_frame_divisibility_error_witness :
    getForeground specOps stateFresh frame6364 = Except.error (PyErr.ioError dimsErrMsg) :=
  c5_first_frame_divisibility_error specOps stateFresh frame6364 rfl (by decide)

/-- C5 is refuted on the construction-time part: constructing with block size 4
succeeds unconditionally (the constructor contains no raise and no frame is
known at construction), and the dimensional IOError only arises when the
63 x 64 first frame is processed. -/
theorem c5_construction_never_raises :
    feInit cfg0 = Except.ok stateFresh ∧
    getForeground specOps stateFresh frame6364 = Except.error (PyErr.ioError dimsErrMsg) :=
  ⟨rfl, by decide⟩

/-- C6: on a non-first frame the facade consumes exactly the statistical
model's retained statistics as the previous state, hands them to compensate
together with the homography computed by RunTrack on the current (smoothed)
frame, feeds compensate's output and nothing else to the statistical
foreground step, and stores the statistical step's output statistics as the
next frame's previous state.  This holds for every operation bundle. -/
theorem c6_state_flow (ops : Ops) (s : FEState) (f : GrayFrame) (prev : Stats)
    (h1 : s.is_first = false) (h2 : s.statState = some prev) :
    getForeground ops s f =
      Except.ok
        ((ops.statGetForeground s.cfg (smoothInput ops s.cfg.smooth f)
            (ops.compensate s.cfg
              (ops.kltRunTrack s.klt (smoothInput ops s.cfg.smooth f)).1 prev)).1,
         ⟨s.cfg, false,
          (ops.kltRunTrack s.klt (smoothInput ops s.cfg.smooth f)).2,
          some (ops.statGetForeground s.cfg (smoothInput ops s.cfg.smooth f)
            (ops.compensate s.cfg
              (ops.kltRunTrack s.klt (smoothInput ops s.cfg.smooth f)).1 prev)).2,
          s.compInited, s.model_height, s.model_width⟩) := by
  simp [getForeground, h1, h2]

/-- C6 witness: the data-flow equation instantiated with the spec-modelled
operations on a concrete post-first-frame state. -/
theorem c6_state_flow_witness :
    getForeground specOps state6 frame44 =
      Except.ok
        ((specOps.statGetForeground state6.cfg (smoothInput specOps state6.cfg.smooth frame44)
            (specOps.compensate state6.cfg
              (specOps.kltRunTrack state6.klt (smoothInput specOps state6.cfg.smooth frame44)).1
              stats6)).1,
         ⟨state6.cfg, false,
          (specOps.kltRunTrack state6.klt (smoothInput specOps state6.cfg.smooth frame44)).2,
          some (specOps.statGetForeground state6.cfg
            (smoothInput specOps state6.cfg.smooth frame44)
            (specOps.compensate state6.cfg
              (specOps.kltRunTrack state6.klt
                (smoothInput specOps state6.cfg.smooth frame44)).1 stats6)).2,
          state6.compInited, state6.model_height, state6.model_width⟩) :=
  c6_state_flow specOps state6 frame44 stats6 rfl rfl

/-- C7: on the first frame the statistical model is initialized with all means
zero, all vars var_init and all ages zero (the spec-modelled StatisticalModel
init); the compensation model is initialized from exactly these fresh
statistics, and the returned foreground map is the statistical foreground
step's raw first component on the frame and the compensation-initialized
statistics — the facade applies no clamp or other transformation to it,
whatever the statistical foreground function is. -/
theorem c7_first_pass_fresh_stats (m2 : GrayFrame → ℕ → GrayFrame)
    (g2 : GrayFrame → ℕ × ℕ → ℚ → GrayFrame) (ki : KLTState → GrayFrame → KLTState)
    (kr : KLTState → GrayFrame → Homography × KLTState)
    (sg : FENums → GrayFrame → Stats → GrayFrame × Stats) (ci : FENums → Stats → Stats)
    (cc : FENums → Homography → Stats → Stats) (s : FEState) (f : GrayFrame) (c k : ℕ)
    (h0 : s.is_first = true)
    (h1 : frameH f % s.cfg.block_size = 0) (h2 : frameW f % s.cfg.block_size = 0)
    (hc : c < (frameH f / s.cfg.block_size) * (frameW f / s.cfg.block_size))
    (hk : k < s.cfg.num_models) :
    listGet2 (specStatInit s.cfg (frameH f / s.cfg.block_size)
      (frameW f / s.cfg.block_size)).means c k = 0 ∧
    listGet2 (specStatInit s.cfg (frameH f / s.cfg.block_size)
      (frameW f / s.cfg.block_size)).vars c k = s.cfg.var_init ∧
    listGet2 (specStatInit s.cfg (frameH f / s.cfg.block_size)
      (frameW f / s.cfg.block_size)).ages c k = 0 ∧
    getForeground ⟨m2, g2, ki, kr, specStatInit, sg, ci, cc⟩ s f =
      Except.ok ((sg s.cfg f (ci s.cfg (specStatInit s.cfg (frameH f / s.cfg.block_size)
          (frameW f / s.cfg.block_size)))).1,
        ⟨s.cfg, false, ki s.klt f,
         some (sg s.cfg f (ci s.cfg (specStatInit s.cfg (frameH f / s.cfg.block_size)
           (frameW f / s.cfg.block_size)))).2,
         true, some (frameH f / s.cfg.block_size), some (frameW f / s.cfg.block_size)⟩) := by
  refine ⟨?_, ?_, ?_, ?_⟩
  · unfold listGet2 specStatInit
    rw [getD_replicate _ _ _ _ hc, getD_replicate _ _ _ _ hk]
  · unfold listGet2 specStatInit
    rw [getD_replicate _ _ _ _ hc, getD_replicate _ _ _ _ hk]
  · unfold listGet2 specStatInit
    rw [getD_replicate _ _ _ _ hc, getD_replicate _ _ _ _ hk]
  · simp [getForeground, firstPass, h0, h1, h2]

/-- C7 witness: the first-pass characterization instantiated on a fresh default
instance, a 4 x 4 frame, cell 0 and model 0. -/
theorem c7_first_pass_fresh_stats_witness :
    listGet2 (specStatInit stateFresh.cfg (frameH frame44 / stateFresh.cfg.block_size)
      (frameW frame44 / stateFresh.cfg.block_size)).means 0 0 = 0 ∧
    listGet2 (specStatInit stateFresh.cfg (frameH frame44 / stateFresh.cfg.block_size)
      (frameW frame44 / stateFresh.cfg.block_size)).vars 0 0 = stateFresh.cfg.var_init ∧
    listGet2 (specStatInit stateFresh.cfg (frameH frame44 / stateFresh.cfg.block_size)
      (frameW frame44 / stateFresh.cfg.block_size)).ages 0 0 = 0 ∧
    getForeground ⟨probeMedianBlur, probeGaussianBlur, specKltInit, specKltRunTrack,
        specStatInit, specStatGetForeground, specCompInit, specCompensate⟩ stateFresh frame44 =
      Except.ok ((specStatGetForeground stateFresh.cfg frame44 (specCompInit stateFresh.cfg
          (specStatInit stateFresh.cfg (frameH frame44 / stateFresh.cfg.block_size)
            (frameW frame44 / stateFresh.cfg.block_size)))).1,
        ⟨stateFresh.cfg, false, specKltInit stateFresh.klt frame44,
         some (specStatGetForeground stateFresh.cfg frame44 (specCompInit stateFresh.cfg
           (specStatInit stateFresh.cfg (frameH frame44 / stateFresh.cfg.block_size)
             (frameW frame44 / stateFresh.cfg.block_size)))).2,
         true, some (frameH frame44 / stateFresh.cfg.block_size),
         some (frameW frame44 / stateFresh.cfg.block_size)⟩) :=
  c7_first_pass_fresh_stats probeMedianBlur probeGaussianBlur specKltInit specKltRunTrack
    specStatGetForeground specCompInit specCompensate stateFresh frame44 0 0
    rfl (by decide) (by decide) (by decide) (by decide)

/-- C9: the first frame bypasses the smoothing block entirely: the first-frame
result is invariant under replacing the blur functions by any others, it equals
first_pass on the raw frame, and the KLT reference and the statistical
foreground consume the raw frame. -/
theorem c9_first_frame_raw (ops : Ops) (m2 : GrayFrame → ℕ → GrayFrame)
    (g2 : GrayFrame → ℕ × ℕ → ℚ → GrayFrame) (s : FEState) (f : GrayFrame)
    (h0 : s.is_first = true) (h1 : frameH f % s.cfg.block_size = 0)
    (h2 : frameW f % s.cfg.block_size = 0) :
    getForeground ⟨m2, g2, ops.kltInit, ops.kltRunTrack, ops.statInit,
        ops.statGetForeground, ops.compInit, ops.compensate⟩ s f =
      getForeground ops s f ∧
    getForeground ops s f = firstPass ops s f ∧
    getForeground ops s f =
      Except.ok ((ops.statGetForeground s.cfg f (ops.compInit s.cfg
          (ops.statInit s.cfg (frameH f / s.cfg.block_size) (frameW f / s.cfg.block_size)))).1,
        ⟨s.cfg, false, ops.kltInit s.klt f,
         some (ops.statGetForeground s.cfg f (ops.compInit s.cfg
           (ops.statInit s.cfg (frameH f / s.cfg.block_size)
             (frameW f / s.cfg.block_size)))).2,
         true, some (frameH f / s.cfg.block_size), some (frameW f / s.cfg.block_size)⟩) := by
  refine ⟨?_, ?_, ?_⟩
  · simp [getForeground, firstPass, h0]
  · simp [getForeground, h0]
  · simp [getForeground, firstPass, h0, h1, h2]

/-- C9 witness: with smooth = True in the configuration, the first frame of a
fresh instance is processed identically under the probe blurs and the
spec-modelled blurs, through first_pass on the raw frame. -/
theorem c9_first_frame_raw_witness :
    getForeground ⟨probeMedianBlur, probeGaussianBlur, specOps.kltInit, specOps.kltRunTrack,
        specOps.statInit, specOps.statGetForeground, specOps.compInit, specOps.compensate⟩
      stateFresh frame44 = getForeground specOps stateFresh frame44 ∧
    getForeground specOps stateFresh frame44 = firstPass specOps stateFresh frame44 ∧
    getForeground specOps stateFresh frame44 =
      Except.ok ((specOps.statGetForeground stateFresh.cfg frame44 (specOps.compInit stateFresh.cfg
          (specOps.statInit stateFresh.cfg (frameH frame44 / stateFresh.cfg.block_size)
            (frameW frame44 / stateFresh.cfg.block_size)))).1,
        ⟨stateFresh.cfg, false, specOps.kltInit stateFresh.klt frame44,
         some (specOps.statGetForeground stateFresh.cfg frame44 (specOps.compInit stateFresh.cfg
           (specOps.statInit stateFresh.cfg (frameH frame44 / stateFresh.cfg.block_size)
             (frameW frame44 / stateFresh.cfg.block_size)))).2,
         true, some (frameH frame44 / stateFresh.cfg.block_size),
         some (frameW frame44 / stateFresh.cfg.block_size)⟩) :=
  c9_first_frame_raw specOps probeMedianBlur probeGaussianBlur stateFresh frame44
    rfl (by decide) (by decide)
